import Mathlib

/-!
Shallow embedding of the `flichub` Home Assistant custom integration
(`custom_components/flichub/__init__.py` and
`custom_components/flichub/event.py`), together with theorems checking
the natural-language specification against the code.

Python dictionaries keyed by strings are modelled as association lists,
`None` as `Option.none` (or an explicit constructor where a field can
also hold an empty dict), and the coordinator's data as an
`Option Snapshot`.  Callback side effects (event-bus fires, dispatcher
sends, issue creation, disconnect calls) are made explicit as returned
values or state components.
-/

namespace Flichub

/-- A Flic button as used by the integration: identified by
`serial_number`, carrying a display `name`.  (From `pyflichub.button.FlicButton`,
only the fields the integration reads.) -/
structure FlicButton where
  serial_number : String
  name : String
deriving DecidableEq, Repr

/-- A network interface record of the hub (`mac`, `ip`). -/
structure NetIf where
  mac : String
  ip : String
deriving DecidableEq, Repr

/-- Hub info as returned by the client (`pyflichub.flichub.FlicHubInfo`):
optional ethernet and wifi interfaces plus a `version` string. -/
structure FlicHubInfo where
  ethernet : Option NetIf
  wifi : Option NetIf
  version : String
deriving DecidableEq, Repr

/-- The value stored under the `DATA_HUB` key of the coordinator snapshot.
In the Python code this key can hold a `FlicHubInfo` object, the empty
dict `{}` (written by `async_update` when the hub-info fetch returns
`None`), or Python `None` (written by the `BUTTONS` command path when no
previous coordinator data exists). -/
inductive HubVal where
  | info (h : FlicHubInfo)
  | emptyDict
  | pyNone
deriving DecidableEq, Repr

/-- Whether the `DATA_HUB` value is an actual hub-info record (non-empty). -/
def HubVal.isNonEmpty : HubVal → Bool
  | .info _ => true
  | .emptyDict => false
  | .pyNone => false

/-- Insert a key/value pair into an association list, replacing an existing
binding of the same key (Python dict assignment semantics). -/
def insertKV (m : List (String × FlicButton)) (k : String) (v : FlicButton) :
    List (String × FlicButton) :=
  if m.any (fun p => p.1 = k) then
    m.map (fun p => if p.1 = k then (k, v) else p)
  else
    m ++ [(k, v)]

/-- The dict comprehension
`{button.serial_number: button for button in buttons}`. -/
def buttonsDict (btns : List FlicButton) : List (String × FlicButton) :=
  btns.foldl (fun acc b => insertKV acc b.serial_number b) []

/-- The coordinator snapshot: the dict
`{DATA_BUTTONS: ..., DATA_HUB: ...}` built by `async_update` and by the
`BUTTONS` branch of `on_command`. -/
structure Snapshot where
  buttons : List (String × FlicButton)
  hub : HubVal
deriving DecidableEq, Repr

/-- The update method `async_update` (lines 107-113 of `__init__.py`):
`buttons` and `hub_info` are fetched independently (each fetch may yield
`None`); the returned snapshot maps `DATA_BUTTONS` to the fresh mapping
if the fetch succeeded, else the empty dict, and `DATA_HUB` to the fetched
hub info if not `None`, else the empty dict. -/
def async_update (buttonsRes : Option (List FlicButton))
    (hubRes : Option FlicHubInfo) : Snapshot :=
  { buttons := match buttonsRes with
      | some btns => buttonsDict btns
      | none => []
    hub := match hubRes with
      | some h => HubVal.info h
      | none => HubVal.emptyDict }

/-- An issue in the Home Assistant issue registry, with the fields
`async_create_issue` is called with in `on_command`. -/
structure Issue where
  issue_id : String
  is_fixable : Bool
  severity : String
  required_version : String
  flichub_version : String
deriving DecidableEq, Repr

/-- The issue registry, modelled as a list of issues keyed by `issue_id`.
`async_create_issue` de-duplicates by key: an issue with an id already in
the registry replaces the existing entry instead of adding a second one. -/
def async_create_issue (registry : List Issue) (i : Issue) : List Issue :=
  if registry.any (fun j => j.issue_id = i.issue_id) then
    registry.map (fun j => if j.issue_id = i.issue_id then i else j)
  else
    registry ++ [i]

/-- A command reply from the hub client, as dispatched on
`command.command` in `on_command`: a `SERVER_INFO` reply carries a
`FlicHubInfo` (whose `.version` is read), a `BUTTONS` reply carries the
button list. -/
inductive Command where
  | serverInfo (data : FlicHubInfo)
  | buttons (data : List FlicButton)
deriving DecidableEq, Repr

/-- State visible to `on_command`: the coordinator's current data
(`None` before the first refresh) and the issue registry. -/
structure CoordState where
  data : Option Snapshot
  issues : List Issue
deriving DecidableEq, Repr

/-- The issue id used in `on_command`:
`f"invalid_server_version_{entry.entry_id}"`. -/
def invalidVersionIssueId (entryId : String) : String :=
  "invalid_server_version_" ++ entryId

/-- The issue created by the `SERVER_INFO` branch of `on_command` on a
version mismatch: non-fixable, severity error, carrying both the required
and the reported version as translation placeholders. -/
def versionIssue (entryId requiredVersion hubVersion : String) : Issue :=
  { issue_id := invalidVersionIssueId entryId
    is_fixable := false
    severity := "error"
    required_version := requiredVersion
    flichub_version := hubVersion }

/-- The body of `on_command` (lines 75-96 of `__init__.py`) for a
non-`None` command. On `SERVER_INFO`: if the reported version differs
from the required version, create the (de-duplicated) issue carrying both
versions; the snapshot is untouched. On `BUTTONS`: replace the
coordinator data with a snapshot whose buttons are the freshly reported
mapping and whose `DATA_HUB` value is
`coordinator.data.get(DATA_HUB, None) if coordinator.data else None`. -/
def applyCommand (entryId requiredVersion : String) (c : Command)
    (st : CoordState) : CoordState :=
  match c with
  | .serverInfo d =>
      if d.version ≠ requiredVersion then
        let iss := versionIssue entryId requiredVersion d.version
        { st with issues := async_create_issue st.issues iss }
      else st
  | .buttons btns =>
      let prevHub : HubVal := match st.data with
        | some s => s.hub
        | none => HubVal.pyNone
      { st with data := some { buttons := buttonsDict btns, hub := prevHub } }

/-- Python exception raised by evaluating an attribute access on `None`. -/
inductive PyError where
  | attributeError
deriving DecidableEq, Repr

/-- The debug-log line of `on_command`
(`_LOGGER.debug(f"Command: {command.command}, data: {command.data}")`):
its f-string dereferences `command.command`, raising `AttributeError`
when `command` is `None`. -/
def logCommandAttr : Option Command → Except PyError Unit
  | none => Except.error PyError.attributeError
  | some _ => Except.ok ()

/-- The full `on_command` callback (lines 71-96): first the debug log
(which dereferences `command.command`), then the `if command is None:
return` guard, then the dispatch on the command kind. -/
def on_command (entryId requiredVersion : String) (cmd : Option Command)
    (st : CoordState) : Except PyError CoordState := do
  let _ ← logCommandAttr cmd
  match cmd with
  | none => Except.ok st
  | some c => Except.ok (applyCommand entryId requiredVersion c st)

/-- An operation on the coordinator state: a periodic/initial pull (with
the two independent fetch results), or a push: an out-of-band command
reply handled by `on_command`. -/
inductive Op where
  | pull (buttonsRes : Option (List FlicButton)) (hubRes : Option FlicHubInfo)
  | push (c : Command)
deriving DecidableEq, Repr

/-- One step of the coordinator state: a pull stores the snapshot built by
`async_update`; a push applies `on_command`'s dispatch. -/
def step (entryId requiredVersion : String) (st : CoordState) (op : Op) :
    CoordState :=
  match op with
  | .pull bRes hRes => { st with data := some (async_update bRes hRes) }
  | .push c => applyCommand entryId requiredVersion c st

/-- Run a sequence of pulls and pushes from an initial state. -/
def run (entryId requiredVersion : String) (st : CoordState)
    (ops : List Op) : CoordState :=
  ops.foldl (step entryId requiredVersion) st

/-! ## Setup and teardown (`async_setup_entry`, `stop_client`,
`async_unload_entry`) -/

/-- Observable actions of the setup/teardown flow of
`async_setup_entry` (lines 129-149), `stop_client` (lines 123-124) and
`async_unload_entry` (lines 185-199). -/
inductive SetupAction where
  | connectAttempt
  | registerStopListener
  | disconnectCall
  | firstRefresh
deriving DecidableEq, Repr

/-- The two fatal setup outcomes: `async_connect` raising a connection
error, and the `ConfigEntryNotReady` raised when the readiness event is
not set within `CLIENT_READY_TIMEOUT`. -/
inductive SetupError where
  | connectError
  | configEntryNotReady
deriving DecidableEq, Repr

/-- The setup flow of `async_setup_entry`, parametrised by whether
`async_connect` succeeds and whether `client_connected` sets the
`client_ready` event before the timeout.  Returns the trace of observable
actions and the fatal error, if any.  Order follows the code:
`await client.async_connect()` (line 129), then registration of the
`EVENT_HOMEASSISTANT_STOP` listener (line 131), then the bounded wait on
`client_ready` (lines 133-139) which on timeout calls
`client.disconnect()` and raises `ConfigEntryNotReady`, then the first
refresh (line 149). -/
def async_setup_entry (connectOk readyBeforeTimeout : Bool) :
    List SetupAction × Option SetupError :=
  if !connectOk then
    ([SetupAction.connectAttempt], some SetupError.connectError)
  else if !readyBeforeTimeout then
    ([SetupAction.connectAttempt, SetupAction.registerStopListener,
      SetupAction.disconnectCall], some SetupError.configEntryNotReady)
  else
    ([SetupAction.connectAttempt, SetupAction.registerStopListener,
      SetupAction.firstRefresh], none)

/-- Number of `disconnect()` calls in a trace. -/
def disconnectCount (trace : List SetupAction) : Nat :=
  trace.countP (fun a => a = SetupAction.disconnectCall)

/-- A whole execution: setup, then optionally an entry unload (possible
only if setup succeeded), then optionally the `EVENT_HOMEASSISTANT_STOP`
event.  `async_unload_entry` calls `client.disconnect()` (line 187).  The
stop listener registered at line 131 stays registered (nothing removes
it), so a platform stop triggers `stop_client` — one more
`client.disconnect()` (line 124) — whenever the listener was registered,
i.e. whenever `async_connect` succeeded, regardless of whether the setup
later timed out or the entry was unloaded. -/
def execution (connectOk readyBeforeTimeout unload haStop : Bool) :
    List SetupAction :=
  let setup := async_setup_entry connectOk readyBeforeTimeout
  let setupOk := setup.2 = none
  setup.1
    ++ (if unload && setupOk then [SetupAction.disconnectCall] else [])
    ++ (if haStop && connectOk then [SetupAction.disconnectCall] else [])

/-- Whether a teardown path is taken in the execution: a setup-timeout
failure, an entry unload of a loaded entry, or a platform stop with the
stop listener registered. -/
def teardownTaken (connectOk readyBeforeTimeout unload haStop : Bool) :
    Bool :=
  (connectOk && !readyBeforeTimeout)
    || (unload && (async_setup_entry connectOk readyBeforeTimeout).2 = none)
    || (haStop && connectOk)

/-! ## Event fan-out (`on_event` in `__init__.py`, `_handle` in
`event.py`) -/

/-- Modelled from the spec: the per-instance channel identifier prefix
`SIGNAL_BUTTON_EVENT` lives in the missing `const.py`; the spec only
fixes that the channel id is `"<fixed-prefix>_<config-instance-id>"`. -/
def SIGNAL_BUTTON_EVENT : String := "flichub_button_event"

/-- Modelled from the spec: the legacy event-bus event type
`EVENT_CLICK` lives in the missing `const.py`; its concrete value is an
opaque constant. -/
def EVENT_CLICK : String := "flichub_click"

/-- A push event from the hub client (`pyflichub.event.Event`): the event
kind (`"button"`, `"buttonReady"`, ...) and the raw action string. -/
structure Event where
  event : String
  action : String
deriving DecidableEq, Repr

/-- The payload dict
`{EVENT_DATA_SERIAL_NUMBER: ..., EVENT_DATA_NAME: ..., EVENT_DATA_CLICK_TYPE: ...}`. -/
structure Payload where
  serial_number : String
  name : String
  click_type : String
deriving DecidableEq, Repr

/-- Observable effects of the `on_event` callback. -/
inductive Effect where
  | busFire (event_type : String) (p : Payload)
  | dispatcherSend (signal : String) (p : Payload)
  | createRefreshTask
deriving DecidableEq, Repr

/-- The payload built in both branches of the `"button"` case of
`on_event`. -/
def buttonPayload (button : FlicButton) (event : Event) : Payload :=
  { serial_number := button.serial_number
    name := button.name
    click_type := event.action }

/-- The `on_event` callback (lines 49-69 of `__init__.py`): on a
`"button"` event it fires the legacy event-bus broadcast and then the
per-instance dispatcher send, both with the same payload; on a
`"buttonReady"` event it schedules a coordinator refresh. -/
def on_event (entryId : String) (button : FlicButton) (event : Event) :
    List Effect :=
  (if event.event = "button" then
    [Effect.busFire EVENT_CLICK (buttonPayload button event),
     Effect.dispatcherSend (SIGNAL_BUTTON_EVENT ++ "_" ++ entryId)
       (buttonPayload button event)]
  else [])
  ++ (if event.event = "buttonReady" then [Effect.createRefreshTask] else [])

/-- The fixed action-code table of `event.py` (line 23):
`CLICK_MAP = {"single": "single_press", "double": "double_press", "hold": "hold"}`,
accessed with `.get` (returning `None` for unmapped codes). -/
def CLICK_MAP (raw : String) : Option String :=
  if raw = "single" then some "single_press"
  else if raw = "double" then some "double_press"
  else if raw = "hold" then some "hold"
  else none

/-- The event triggered on the entity by `_handle` via
`self._trigger_event(event_type, extra)`. -/
structure TriggeredEvent where
  event_type : String
  extra_name : String
  extra_click_type_raw : String
deriving DecidableEq, Repr

/-- The subscriber handler `_handle` of
`FlicHubButtonEventEntity.async_added_to_hass` (lines 60-77 of
`event.py`): drop events whose serial number does not match the entity's;
translate the raw click type through `CLICK_MAP`; if unmapped (`.get`
returned `None`, which is falsy), return without triggering; otherwise
trigger the mapped event type with the name and raw click type as extra
data.  A `none` result means no entity event is triggered. -/
def handleButtonEvent (selfSerial : String) (data : Payload) :
    Option TriggeredEvent :=
  if data.serial_number ≠ selfSerial then none
  else
    match CLICK_MAP data.click_type with
    | none => none
    | some et =>
        some { event_type := et
               extra_name := data.name
               extra_click_type_raw := data.click_type }

/-! ## Sample values for concrete counterexamples and witnesses -/

/-- A sample hub-info record. -/
def sampleHub : FlicHubInfo :=
  { ethernet := some { mac := "aa:bb:cc:dd:ee:ff", ip := "192.168.1.10" }
    wifi := none
    version := "1.2.3" }

/-- A sample snapshot whose hub info is non-empty. -/
def sampleSnap : Snapshot :=
  { buttons := [], hub := HubVal.info sampleHub }

end Flichub

namespace Flichub

/-! ## Theorems for the claims -/

/-- C1, as stated, is false: after a pull that stored a non-empty
`hub_info`, a second pull whose hub-info sub-query fails (returns `None`)
produces a snapshot whose `hub_info` is the empty dict — `async_update`
writes `{}`, not the previous snapshot's value. -/
theorem C1_counterexample :
    ((run "e1" "1.2.4" { data := none, issues := [] }
        [Op.pull (some []) (some sampleHub)]).data.map Snapshot.hub) =
      some (HubVal.info sampleHub) ∧
    (HubVal.info sampleHub).isNonEmpty = true ∧
    ((run "e1" "1.2.4" { data := none, issues := [] }
        [Op.pull (some []) (some sampleHub),
         Op.pull (some []) none]).data.map Snapshot.hub) =
      some HubVal.emptyDict ∧
    HubVal.emptyDict.isNonEmpty = false := by
  decide

/-- C1 amended: `hub_info` is preserved by the push buttons-list update
path (`on_command`'s `BUTTONS` branch keeps the previous snapshot's
value), but a pull whose hub-info sub-query fails replaces `hub_info`
with the empty dict rather than keeping the previous value. -/
theorem C1_amended (entryId req : String) (st : CoordState) (s : Snapshot)
    (bRes : Option (List FlicButton)) (btns : List FlicButton)
    (hprev : st.data = some s) :
    ((step entryId req st (Op.pull bRes none)).data.map Snapshot.hub) =
      some HubVal.emptyDict ∧
    ((step entryId req st
        (Op.push (Command.buttons btns))).data.map Snapshot.hub) =
      some s.hub := by
  constructor
  · simp [step, async_update]
  · simp [step, applyCommand, hprev]

/-- Witness for C1 amended at a concrete state with non-empty hub info. -/
theorem C1_amended_witness :
    (({ data := some sampleSnap, issues := [] } : CoordState).data =
      some sampleSnap) ∧
    (((step "e1" "1.2.4" { data := some sampleSnap, issues := [] }
        (Op.pull (some []) none)).data.map Snapshot.hub) =
      some HubVal.emptyDict ∧
    ((step "e1" "1.2.4" { data := some sampleSnap, issues := [] }
        (Op.push (Command.buttons []))).data.map Snapshot.hub) =
      some sampleSnap.hub) :=
  ⟨rfl, C1_amended "e1" "1.2.4"
    { data := some sampleSnap, issues := [] } sampleSnap (some []) [] rfl⟩

/-- C2: for every pull, `buttons` in the resulting snapshot is exactly the
mapping built from the fetched list when the fetch succeeded, and the
empty mapping when the fetch returned `None` — never the previous
mapping (the state `st` is arbitrary, including states with non-empty
previous buttons).  The push `BUTTONS` path likewise installs exactly the
freshly reported mapping. -/
theorem C2_buttons_authoritative (entryId req : String) (st : CoordState) :
    (∀ btns hRes,
      ((step entryId req st
          (Op.pull (some btns) hRes)).data.map Snapshot.buttons) =
        some (buttonsDict btns)) ∧
    (∀ hRes,
      ((step entryId req st
          (Op.pull none hRes)).data.map Snapshot.buttons) = some []) ∧
    (∀ btns,
      ((step entryId req st
          (Op.push (Command.buttons btns))).data.map Snapshot.buttons) =
        some (buttonsDict btns)) := by
  refine ⟨fun btns hRes => ?_, fun hRes => ?_, fun btns => ?_⟩
  · simp [step, async_update]
  · simp [step, async_update]
  · simp [step, applyCommand]

/-- C3, as stated, is false: an out-of-band `SERVER_INFO` reply does not
replace the snapshot's `hub_info` — `on_command`'s `SERVER_INFO` branch
never touches the coordinator data, so the snapshot keeps its previous
(here: empty) hub value instead of the reply's hub info. -/
theorem C3_counterexample :
    (on_command "e1" "1.2.3"
        (some (Command.serverInfo sampleHub))
        { data := some { buttons := [], hub := HubVal.emptyDict },
          issues := [] }).map CoordState.data =
      Except.ok (some { buttons := [], hub := HubVal.emptyDict }) ∧
    HubVal.emptyDict ≠ HubVal.info sampleHub :=
  ⟨rfl, by decide⟩

/-- C3 amended: an unsolicited `SERVER_INFO` reply leaves the snapshot
entirely unchanged — neither `hub_info` nor `buttons` is modified; only
the version-compliance check runs. -/
theorem C3_amended (entryId req : String) (st : CoordState)
    (hi : FlicHubInfo) :
    (on_command entryId req (some (Command.serverInfo hi)) st).map
      CoordState.data = Except.ok st.data := by
  simp only [on_command, logCommandAttr, bind, Except.bind, Except.map,
    applyCommand]
  split <;> rfl

/-- C4: when the readiness event is not set within the timeout (connect
itself having succeeded), setup calls `disconnect()` exactly once and
aborts with `ConfigEntryNotReady`, which is distinct from the connect
failure, and the first refresh never runs; when the connected hook fires
before the timeout, setup succeeds and proceeds to the first refresh. -/
theorem C4_readiness_gate :
    (async_setup_entry true false).2 = some SetupError.configEntryNotReady ∧
    disconnectCount (async_setup_entry true false).1 = 1 ∧
    SetupError.configEntryNotReady ≠ SetupError.connectError ∧
    SetupAction.firstRefresh ∉ (async_setup_entry true false).1 ∧
    (async_setup_entry true true).2 = none ∧
    SetupAction.firstRefresh ∈ (async_setup_entry true true).1 := by
  decide

/-- C5, as stated, is false: when the entry is unloaded and the platform
later stops, `disconnect()` is triggered twice — once by
`async_unload_entry` and once by the still-registered
`EVENT_HOMEASSISTANT_STOP` listener, which nothing ever removes.  (The
same double call occurs on a setup timeout followed by a platform
stop.) -/
theorem C5_counterexample :
    teardownTaken true true true true = true ∧
    disconnectCount (execution true true true true) = 2 ∧
    teardownTaken true false false true = true ∧
    disconnectCount (execution true false false true) = 2 := by
  decide

/-- C5 amended: on every execution in which at least one teardown path is
taken (setup-timeout failure, entry unload, or platform stop after a
successful connect), `disconnect()` is triggered at least once — but it
can be triggered more than once when several teardown paths occur,
relying on `disconnect()` being idempotent. -/
theorem C5_amended (connectOk readyBeforeTimeout unload haStop : Bool)
    (h : teardownTaken connectOk readyBeforeTimeout unload haStop = true) :
    1 ≤ disconnectCount (execution connectOk readyBeforeTimeout unload haStop) := by
  revert h
  revert connectOk readyBeforeTimeout unload haStop
  decide

/-- Witness for C5 amended: teardown by entry unload alone. -/
theorem C5_amended_witness :
    teardownTaken true true true false = true ∧
    1 ≤ disconnectCount (execution true true true false) :=
  ⟨by decide, C5_amended true true true false (by decide)⟩

/-- Creating an issue whose id is absent from the registry appends it. -/
theorem async_create_issue_absent (l : List Issue) (i : Issue)
    (h : ∀ j ∈ l, j.issue_id ≠ i.issue_id) :
    async_create_issue l i = l ++ [i] := by
  unfold async_create_issue
  rw [if_neg]
  simp only [List.any_eq_true, decide_eq_true_eq, not_exists]
  intro p
  simp only [not_and]
  exact fun hp => h p hp

/-- Re-creating an issue already present (as the last entry of a registry
whose other entries have different ids) leaves the registry unchanged:
the de-duplicated replace-by-key is a no-op. -/
theorem async_create_issue_present_self (l : List Issue) (i : Issue)
    (h : ∀ j ∈ l, j.issue_id ≠ i.issue_id) :
    async_create_issue (l ++ [i]) i = l ++ [i] := by
  unfold async_create_issue
  rw [if_pos]
  · rw [List.map_append]
    congr 1
    · conv_rhs => rw [← List.map_id l]
      apply List.map_congr_left
      intro j hj
      simp [h j hj]
    · simp
  · simp

/-- C6: the reported version is compared to the required version by exact
string equality; a mismatched `SERVER_INFO` reply creates exactly one
non-fixable issue keyed `invalid_server_version_<entry_id>` carrying both
version strings; a second mismatched reply with the same version adds no
further issue (the registry de-duplicates by key); the coordinator data
is untouched; and a matching version creates no issue and changes
nothing. -/
theorem C6_version_advisory (entryId req v : String) (st : CoordState)
    (eth wifi : Option NetIf)
    (hv : v ≠ req)
    (hclean : st.issues.countP
      (fun i => i.issue_id = invalidVersionIssueId entryId) = 0) :
    (run entryId req st
        [Op.push (Command.serverInfo { ethernet := eth, wifi := wifi, version := v }),
         Op.push (Command.serverInfo { ethernet := eth, wifi := wifi, version := v })]).issues =
      st.issues ++ [versionIssue entryId req v] ∧
    (versionIssue entryId req v).is_fixable = false ∧
    (versionIssue entryId req v).required_version = req ∧
    (versionIssue entryId req v).flichub_version = v ∧
    (run entryId req st
        [Op.push (Command.serverInfo { ethernet := eth, wifi := wifi, version := v }),
         Op.push (Command.serverInfo { ethernet := eth, wifi := wifi, version := v })]).issues.countP
      (fun i => i.issue_id = invalidVersionIssueId entryId) = 1 ∧
    (run entryId req st
        [Op.push (Command.serverInfo { ethernet := eth, wifi := wifi, version := v }),
         Op.push (Command.serverInfo { ethernet := eth, wifi := wifi, version := v })]).data =
      st.data ∧
    (∀ hi : FlicHubInfo, hi.version = req →
      step entryId req st (Op.push (Command.serverInfo hi)) = st) := by
  have hmem : ∀ j ∈ st.issues, j.issue_id ≠ invalidVersionIssueId entryId := by
    intro j hj
    have := List.countP_eq_zero.mp hclean j hj
    simpa using this
  have hmem' : ∀ j ∈ st.issues, j.issue_id ≠ (versionIssue entryId req v).issue_id :=
    fun j hj => hmem j hj
  have hpush : ∀ s : CoordState,
      step entryId req s
        (Op.push (Command.serverInfo { ethernet := eth, wifi := wifi, version := v })) =
      { s with issues := async_create_issue s.issues (versionIssue entryId req v) } := by
    intro s
    simp only [step, applyCommand]
    rw [if_pos hv]
  have hone : async_create_issue st.issues (versionIssue entryId req v) =
      st.issues ++ [versionIssue entryId req v] :=
    async_create_issue_absent _ _ hmem'
  have hissues : (run entryId req st
      [Op.push (Command.serverInfo { ethernet := eth, wifi := wifi, version := v }),
       Op.push (Command.serverInfo { ethernet := eth, wifi := wifi, version := v })]).issues =
      st.issues ++ [versionIssue entryId req v] := by
    simp only [run, List.foldl_cons, List.foldl_nil, hpush, hone]
    exact async_create_issue_present_self _ _ hmem'
  refine ⟨hissues, rfl, rfl, rfl, ?_, ?_, ?_⟩
  · rw [hissues, List.countP_append, hclean]
    simp [versionIssue]
  · simp only [run, List.foldl_cons, List.foldl_nil, hpush]
  · intro hi hq
    simp only [step, applyCommand]
    rw [if_neg]
    simp [hq]

/-- Witness for C6 at concrete inputs: reported version "1.2.3" vs
required "1.2.4", starting from an empty registry; after two identical
mismatched replies exactly the one advisory is present. -/
theorem C6_version_advisory_witness :
    ("1.2.3" ≠ "1.2.4") ∧
    (([] : List Issue).countP
      (fun i => i.issue_id = invalidVersionIssueId "e1") = 0) ∧
    (run "e1" "1.2.4" { data := none, issues := [] }
        [Op.push (Command.serverInfo { ethernet := none, wifi := none, version := "1.2.3" }),
         Op.push (Command.serverInfo { ethernet := none, wifi := none, version := "1.2.3" })]).issues =
      [versionIssue "e1" "1.2.4" "1.2.3"] :=
  ⟨by decide, by decide,
    (C6_version_advisory "e1" "1.2.4" "1.2.3" { data := none, issues := [] }
      none none (by decide) (by decide)).1⟩

/-- C7: a subscriber's handler translates the raw action through the
fixed table (`"single"` to `"single_press"`, `"double"` to
`"double_press"`, `"hold"` to `"hold"`); any action outside the table
(such as `"triple"`) is silently dropped — no entity event is triggered
(the handler is a total function returning `none`, no error); a mapped
action on a matching serial number triggers the translated event type
with the name and raw click type attached. -/
theorem C7_action_mapping :
    CLICK_MAP "single" = some "single_press" ∧
    CLICK_MAP "double" = some "double_press" ∧
    CLICK_MAP "hold" = some "hold" ∧
    CLICK_MAP "triple" = none ∧
    (∀ serial data, CLICK_MAP data.click_type = none →
      handleButtonEvent serial data = none) ∧
    (∀ serial data et, data.serial_number = serial →
      CLICK_MAP data.click_type = some et →
      handleButtonEvent serial data =
        some { event_type := et, extra_name := data.name,
               extra_click_type_raw := data.click_type }) := by
  refine ⟨by decide, by decide, by decide, by decide, ?_, ?_⟩
  · intro serial data hmap
    simp [handleButtonEvent, hmap]
  · intro serial data et hserial hmap
    simp [handleButtonEvent, hserial, hmap]

/-- Witness for C7: concrete payloads — `"triple"` is dropped,
`"single"` is delivered as `"single_press"` with the raw code attached. -/
theorem C7_action_mapping_witness :
    CLICK_MAP ("triple" : String) = none ∧
    handleButtonEvent "sn1"
      { serial_number := "sn1", name := "Kitchen", click_type := "triple" } =
      none ∧
    handleButtonEvent "sn1"
      { serial_number := "sn1", name := "Kitchen", click_type := "single" } =
      some { event_type := "single_press", extra_name := "Kitchen",
             extra_click_type_raw := "single" } :=
  ⟨by decide,
    C7_action_mapping.2.2.2.2.1 "sn1"
      { serial_number := "sn1", name := "Kitchen", click_type := "triple" }
      (by decide),
    C7_action_mapping.2.2.2.2.2 "sn1"
      { serial_number := "sn1", name := "Kitchen", click_type := "single" }
      "single_press" rfl (by decide)⟩

/-- C8: on every `"button"` push event, both delivery paths fire — the
legacy host-global bus fire and the per-instance dispatcher send — in
that order, each carrying the identical payload
`{serial_number, name, click_type}` built from the button's serial
number, the button's name and the event's raw action. -/
theorem C8_dual_delivery (entryId : String) (button : FlicButton)
    (event : Event) (h : event.event = "button") :
    on_event entryId button event =
      [Effect.busFire EVENT_CLICK (buttonPayload button event),
       Effect.dispatcherSend (SIGNAL_BUTTON_EVENT ++ "_" ++ entryId)
         (buttonPayload button event)] ∧
    buttonPayload button event =
      { serial_number := button.serial_number, name := button.name,
        click_type := event.action } := by
  constructor
  · simp [on_event, h]
  · rfl

/-- Witness for C8 at a concrete button event. -/
theorem C8_dual_delivery_witness :
    (({ event := "button", action := "single" } : Event).event = "button") ∧
    (on_event "e1" { serial_number := "sn1", name := "Kitchen" }
        { event := "button", action := "single" } =
      [Effect.busFire EVENT_CLICK
        (buttonPayload { serial_number := "sn1", name := "Kitchen" }
          { event := "button", action := "single" }),
       Effect.dispatcherSend (SIGNAL_BUTTON_EVENT ++ "_" ++ "e1")
        (buttonPayload { serial_number := "sn1", name := "Kitchen" }
          { event := "button", action := "single" })] ∧
    buttonPayload { serial_number := "sn1", name := "Kitchen" }
        { event := "button", action := "single" } =
      { serial_number := "sn1", name := "Kitchen", click_type := "single" }) :=
  ⟨rfl, C8_dual_delivery "e1" { serial_number := "sn1", name := "Kitchen" }
    { event := "button", action := "single" } rfl⟩

/-- C9: a `"buttonReady"` push event schedules a coordinator refresh (an
out-of-cadence pull) and nothing else — in particular no bus fire or
dispatcher send. -/
theorem C9_buttonReady_refresh (entryId : String) (button : FlicButton)
    (event : Event) (h : event.event = "buttonReady") :
    on_event entryId button event = [Effect.createRefreshTask] := by
  simp [on_event, h]

/-- Witness for C9 at a concrete `"buttonReady"` event. -/
theorem C9_buttonReady_refresh_witness :
    (({ event := "buttonReady", action := "" } : Event).event = "buttonReady") ∧
    on_event "e1" { serial_number := "sn1", name := "Kitchen" }
      { event := "buttonReady", action := "" } = [Effect.createRefreshTask] :=
  ⟨rfl, C9_buttonReady_refresh "e1" { serial_number := "sn1", name := "Kitchen" }
    { event := "buttonReady", action := "" } rfl⟩

/-- C10: calling `on_command` with a `None` command raises
`AttributeError` — the debug log's f-string dereferences
`command.command` before the `if command is None: return` guard — so the
guard's silent-return branch (which would yield `Except.ok` with the
state unchanged) is never reached for the `None` input it is meant to
handle. -/
theorem C10_none_command_raises (entryId req : String) (st : CoordState) :
    on_command entryId req none st = Except.error PyError.attributeError ∧
    (Except.error PyError.attributeError : Except PyError CoordState) ≠
      Except.ok st := by
  constructor
  · rfl
  · intro hcontra
    exact Except.noConfusion hcontra

end Flichub
